import Mathlib

/-!
Shallow embedding of the rust-sfml binding layer: the `TcpSocket` wrapper
(src/network/tcp_socket.rs), the `VertexArray` wrapper
(src/graphics/vertex_array.rs) and the sound-capture example
(src/examples/sound_capture/main.rs).

Raw pointers are modelled as natural-number addresses with `0` as the null
pointer.  Every foreign (FFI) call is modelled by two things: the value the
external library returns, passed in as an explicit oracle argument, and a
record of the call as it was issued, emitted in a `List FfiCall` so that the
arguments actually handed to the foreign entry point can be inspected.
-/

/-- `network::IpAddress`: wrapper over the foreign address value; `unwrap`
returns the stored foreign value (tcp_socket.rs calls `host.unwrap()`). -/
structure IpAddress where
  addr : Nat
deriving DecidableEq, Repr

def IpAddress.unwrap (self : IpAddress) : Nat :=
  self.addr

/-- `system::Time`: wrapper over the foreign time value; `unwrap` returns the
stored foreign value (tcp_socket.rs calls `timeout.unwrap()`). -/
structure Time where
  time : Int
deriving DecidableEq, Repr

def Time.unwrap (self : Time) : Int :=
  self.time

/-- `network::Packet`: wrapper owning one foreign packet handle. -/
structure Packet where
  packet : Nat
deriving DecidableEq, Repr

/-- Modelled from the spec: `network::Packet` is not under src (only
tcp_socket.rs uses it); per sections 3 and 4 and the glossary, a wrapper owns
exactly one handle and `Wrappable::wrap` stores the given handle. -/
def Packet.wrap (p : Nat) : Packet :=
  { packet := p }

def Packet.unwrap (self : Packet) : Nat :=
  self.packet

/-- Modelled from the spec: `ffi::sfml_types::SfBool` is not under src; the
match in `TcpSocket::is_blocking` (tcp_socket.rs lines 85-90) is exhaustive
over exactly the two values `SFFALSE` and `SFTRUE`, so the foreign boolean
type has exactly these two values. -/
inductive SfBool where
  | SFFALSE
  | SFTRUE
deriving DecidableEq, Repr

/-- Modelled from the spec: `network::SocketStatus` is not under src; section 6
gives the small closed set of integer outcomes done / not-ready /
disconnected / error returned by blocking I/O calls. -/
inductive SocketStatus where
  | Done
  | NotReady
  | Disconnected
  | Error
deriving DecidableEq, Repr

/-- The Rust cast `as i8`: truncation to 8 bits, two's complement. -/
def toI8 (n : Int) : Int :=
  (n + 128) % 256 - 128

/-- The `mem::transmute::<i8, SocketStatus>` used by every blocking I/O method
in tcp_socket.rs: defined on the discriminant values of the four variants,
undefined behaviour (modelled as `none`) elsewhere. -/
def socketStatusOfCode : Int → Option SocketStatus
  | 0 => some SocketStatus.Done
  | 1 => some SocketStatus.NotReady
  | 2 => some SocketStatus.Disconnected
  | 3 => some SocketStatus.Error
  | _ => none

/-- `graphics::vertex::Vertex`: opaque vertex value, only ever forwarded. -/
structure Vertex where
  idx : Nat
deriving DecidableEq, Repr

/-- A record of one foreign entry-point invocation, with the exact arguments
passed across the boundary. -/
inductive FfiCall where
  | sfTcpSocket_setBlocking (socket : Nat) (b : SfBool)
  | sfTcpSocket_connect (socket : Nat) (host : Nat) (port : Nat) (timeout : Int)
  | sfTcpSocket_send (socket : Nat) (ptr : Nat) (len : Nat)
  | sfTcpSocket_receive (socket : Nat) (dest : Nat) (maxSize : Nat)
  | sfTcpSocket_sendPacket (socket : Nat) (packet : Nat)
  | sfTcpSocket_receivePacket (socket : Nat) (packet : Nat)
  | sfTcpSocket_destroy (socket : Nat)
  | sfVertexArray_append (va : Nat) (vertex : Vertex)
  | sfVertexArray_setPrimitiveType (va : Nat) (stype : Nat)
  | sfVertexArray_destroy (va : Nat)
deriving DecidableEq, Repr

/-- `TcpSocket` (tcp_socket.rs line 39): holds one raw socket handle. -/
structure TcpSocket where
  socket : Nat
deriving DecidableEq, Repr

/-- `TcpSocket::new` (tcp_socket.rs lines 48-58): `tcp` is the handle the
foreign factory `sfTcpSocket_create` returned; null yields `None`. -/
def TcpSocket.new (tcp : Nat) : Option TcpSocket :=
  if tcp = 0 then none else some { socket := tcp }

/-- `TcpSocket::set_blocking` (lines 73-80): the match on the boolean. -/
def TcpSocket.set_blocking (self : TcpSocket) (blocking : Bool) : List FfiCall :=
  match blocking with
  | true => [FfiCall.sfTcpSocket_setBlocking self.socket SfBool.SFTRUE]
  | false => [FfiCall.sfTcpSocket_setBlocking self.socket SfBool.SFFALSE]

/-- `TcpSocket::is_blocking` (lines 85-90): `ret` is the foreign call's
result; the match has exactly two arms and no fallback. -/
def TcpSocket.is_blocking (self : TcpSocket) (ret : SfBool) : Bool :=
  match ret with
  | SfBool.SFFALSE => false
  | SfBool.SFTRUE => true

/-- `TcpSocket::connect` (lines 139-143): `code` is the foreign call's
result, cast `as i8` and transmuted to `SocketStatus`. -/
def TcpSocket.connect (self : TcpSocket) (host : IpAddress) (port : Nat)
    (timeout : Time) (code : Int) : List FfiCall × Option SocketStatus :=
  ([FfiCall.sfTcpSocket_connect self.socket host.unwrap port timeout.unwrap],
   socketStatusOfCode (toI8 code))

/-- `TcpSocket::send` (lines 161-165): the slice is modelled as its base
pointer `ptr` (`data.as_ptr()`) plus its contents `data` (`data.len()` is
`data.length`); `code` is the foreign call's result. -/
def TcpSocket.send (self : TcpSocket) (ptr : Nat) (data : List Int)
    (code : Int) : List FfiCall × Option SocketStatus :=
  ([FfiCall.sfTcpSocket_send self.socket ptr data.length],
   socketStatusOfCode (toI8 code))

/-- `TcpSocket::receive` (lines 177-184): `datas` is `ptr::null_mut()`, i.e.
address 0, passed as the destination; the foreign call reports status `code`
and stores `written` in the out-parameter `s`; the returned vector is
`slice::from_raw_buf` reading `written` bytes at the null address, modelled by
the ambient memory `mem`. -/
def TcpSocket.receive (self : TcpSocket) (mem : Nat → Nat → List Int)
    (maxSize : Nat) (code : Int) (written : Nat) :
    List FfiCall × Option (List Int × SocketStatus × Nat) :=
  ([FfiCall.sfTcpSocket_receive self.socket 0 maxSize],
   (socketStatusOfCode (toI8 code)).map (fun stat => (mem 0 written, stat, written)))

/-- `TcpSocket::send_packet` (lines 192-196). -/
def TcpSocket.send_packet (self : TcpSocket) (packet : Packet)
    (code : Int) : List FfiCall × Option SocketStatus :=
  ([FfiCall.sfTcpSocket_sendPacket self.socket packet.unwrap],
   socketStatusOfCode (toI8 code))

/-- `TcpSocket::receive_packet` (lines 205-211): `pack` is `ptr::null_mut()`,
address 0, passed to the foreign call and then wrapped into the returned
`Packet`. -/
def TcpSocket.receive_packet (self : TcpSocket) (code : Int) :
    List FfiCall × Option (Packet × SocketStatus) :=
  ([FfiCall.sfTcpSocket_receivePacket self.socket 0],
   (socketStatusOfCode (toI8 code)).map (fun stat => (Packet.wrap 0, stat)))

/-- `Wrappable::wrap` for `TcpSocket` (lines 215-219): stores the handle. -/
def TcpSocket.wrap (socket : Nat) : TcpSocket :=
  { socket := socket }

/-- `Wrappable::unwrap` for `TcpSocket` (lines 221-223): takes `&self` and
returns a copy of the handle, leaving the wrapper alive. -/
def TcpSocket.unwrap (self : TcpSocket) : Nat :=
  self.socket

/-- `Drop for TcpSocket` (lines 226-232): one `sfTcpSocket_destroy` call. -/
def TcpSocket.drop (self : TcpSocket) : List FfiCall :=
  [FfiCall.sfTcpSocket_destroy self.socket]

/-- `csfml::sfPoints` (vertex_array.rs line 16). -/
def sfPoints : Nat := 0

/-- `csfml::sfLines` (line 17). -/
def sfLines : Nat := 1

/-- `csfml::sfLinesStrip` (line 18). -/
def sfLinesStrip : Nat := 2

/-- `csfml::sfTriangles` (line 19). -/
def sfTriangles : Nat := 3

/-- `csfml::sfTrianglesStrip` (line 20). -/
def sfTrianglesStrip : Nat := 4

/-- `csfml::sfTrianglesFan` (line 21). -/
def sfTrianglesFan : Nat := 5

/-- `csfml::sfQuads` (line 22). -/
def sfQuads : Nat := 6

/-- `graphics::primitive_type::PrimitiveType`: the seven local variants named
in the matches of vertex_array.rs lines 91-114. -/
inductive PrimitiveType where
  | Points
  | Lines
  | LinesStrip
  | Triangles
  | TrianglesStrip
  | TrianglesFan
  | Quads
deriving DecidableEq, Repr

/-- `VertexArray` (vertex_array.rs lines 44-46): holds one raw handle. -/
structure VertexArray where
  vertexArray : Nat
deriving DecidableEq, Repr

/-- `VertexArray::new` (lines 49-53): `created` is the handle the foreign
factory `sfVertexArray_create` returned; it is stored with no null check. -/
def VertexArray.new (created : Nat) : VertexArray :=
  { vertexArray := created }

/-- `VertexArray::append` (lines 79-83): forwards `*vertex`. -/
def VertexArray.append (self : VertexArray) (vertex : Vertex) : List FfiCall :=
  [FfiCall.sfVertexArray_append self.vertexArray vertex]

/-- The local-to-foreign table of `VertexArray::set_primitive_type`
(lines 91-101): which `sfPrimitiveType` code each match arm passes. -/
def primitiveCodeOf : PrimitiveType → Nat
  | PrimitiveType.Points => sfPoints
  | PrimitiveType.Lines => sfLines
  | PrimitiveType.LinesStrip => sfLinesStrip
  | PrimitiveType.Triangles => sfTriangles
  | PrimitiveType.TrianglesStrip => sfTrianglesStrip
  | PrimitiveType.TrianglesFan => sfTrianglesFan
  | PrimitiveType.Quads => sfQuads

/-- `VertexArray::set_primitive_type` (lines 91-101): one foreign call
carrying the code selected by the match. -/
def VertexArray.set_primitive_type (self : VertexArray)
    (primitiveType : PrimitiveType) : List FfiCall :=
  [FfiCall.sfVertexArray_setPrimitiveType self.vertexArray (primitiveCodeOf primitiveType)]

/-- The foreign-to-local match of `VertexArray::get_primitive_type`
(lines 103-114), including its wildcard arm defaulting to `Points`. -/
def primitiveTypeOfCode (code : Nat) : PrimitiveType :=
  if code = sfPoints then PrimitiveType.Points
  else if code = sfLines then PrimitiveType.Lines
  else if code = sfLinesStrip then PrimitiveType.LinesStrip
  else if code = sfTriangles then PrimitiveType.Triangles
  else if code = sfTrianglesStrip then PrimitiveType.TrianglesStrip
  else if code = sfTrianglesFan then PrimitiveType.TrianglesFan
  else if code = sfQuads then PrimitiveType.Quads
  else PrimitiveType.Points

/-- `VertexArray::get_primitive_type` (lines 103-114): `code` is the foreign
call's result. -/
def VertexArray.get_primitive_type (self : VertexArray) (code : Nat) : PrimitiveType :=
  primitiveTypeOfCode code

/-- `VertexArray::wrap` (lines 116-118): stores the handle. -/
def VertexArray.wrap (va : Nat) : VertexArray :=
  { vertexArray := va }

/-- `VertexArray::unwrap` (lines 120-122): takes `&self` and returns a copy
of the handle, leaving the wrapper alive. -/
def VertexArray.unwrap (self : VertexArray) : Nat :=
  self.vertexArray

/-- `Drop for VertexArray` (lines 125-131): one `sfVertexArray_destroy`. -/
def VertexArray.drop (self : VertexArray) : List FfiCall :=
  [FfiCall.sfVertexArray_destroy self.vertexArray]

/-- Ownership state for the wrapper lifecycle: the handles held by the live
`TcpSocket` wrappers, and the destructor calls issued so far. -/
structure OwnState where
  live : List Nat
  destroyed : List FfiCall
deriving DecidableEq, Repr

/-- The lifecycle operations the source exposes on a `TcpSocket` wrapper:
construction via the factory, `Wrappable::wrap` of a handle obtained by
`Wrappable::unwrap` from a live wrapper (which only borrows it), and the
implicit `Drop`. -/
inductive OwnOp where
  | newSocket (factory : Nat)
  | rewrapUnwrapped (i : Nat)
  | dropWrapper (i : Nat)
deriving DecidableEq, Repr

/-- One lifecycle step, following the source semantics: `new` keeps a wrapper
only on a non-null factory handle; `unwrap` returns the handle while the
original wrapper stays live, and `wrap` makes a second wrapper of it; `drop`
removes the wrapper and issues its destructor call. -/
def ownStep (s : OwnState) : OwnOp → OwnState
  | OwnOp.newSocket factory =>
    match TcpSocket.new factory with
    | none => s
    | some w => { s with live := s.live ++ [w.socket] }
  | OwnOp.rewrapUnwrapped i =>
    match s.live[i]? with
    | none => s
    | some h =>
      { s with live := s.live ++ [(TcpSocket.wrap (TcpSocket.unwrap { socket := h })).socket] }
  | OwnOp.dropWrapper i =>
    match s.live[i]? with
    | none => s
    | some h =>
      { live := s.live.eraseIdx i,
        destroyed := s.destroyed ++ TcpSocket.drop { socket := h } }

/-- A whole lifecycle trace from the empty state. -/
def ownRun (ops : List OwnOp) : OwnState :=
  ops.foldl ownStep { live := [], destroyed := [] }

/-- Playback status of a sound object. -/
inductive SoundStatus where
  | Stopped
  | Paused
  | Playing
deriving DecidableEq, Repr

/-- `rsfml::audio::rc::Sound`: a playback object over a shared buffer. -/
structure Sound where
  status : SoundStatus
  buffer : Nat
deriving DecidableEq, Repr

/-- Modelled from the spec: `rsfml::audio::rc::Sound` is not under src (only
the sound_capture example calls it).  Per the resource-wrapper contract a
failing factory yields the absence value, and per section 8 a freshly
constructed sound on which `play` was not yet invoked reports the stopped
state; `created` is the foreign factory's handle, `buffer` the shared
buffer. -/
def Sound.new_with_buffer (created : Nat) (buffer : Nat) : Option Sound :=
  if created = 0 then none
  else some { status := SoundStatus.Stopped, buffer := buffer }

/-- Modelled from the spec: `play` starts playback. -/
def Sound.play (self : Sound) : Sound :=
  { self with status := SoundStatus.Playing }

/-- Modelled from the spec: `get_status` reports the playback status. -/
def Sound.get_status (self : Sound) : SoundStatus :=
  self.status

/-- Claim C1 counterexample: when the foreign factory returns the null handle
(address 0), `VertexArray::new` does not yield an absence value — its result
type is `VertexArray`, not an option — and the wrapper it returns holds the
null handle. -/
theorem C1_counterexample : (VertexArray.new 0).vertexArray = 0 := by
  rfl

/-- Claim C1 (amended): `TcpSocket::new` yields `none` exactly when the
foreign factory returns the null handle, and any wrapper it yields holds the
factory's non-null handle; `VertexArray::new`, in contrast, performs no null
check and returns a wrapper holding the factory's handle even when it is
null. -/
theorem C1_null_factory :
    (∀ p : Nat, TcpSocket.new p = none ↔ p = 0) ∧
    (∀ (p : Nat) (w : TcpSocket), TcpSocket.new p = some w → w.socket = p ∧ w.socket ≠ 0) ∧
    (∀ p : Nat, (VertexArray.new p).vertexArray = p) := by
  refine ⟨fun p => ?_, fun p w h => ?_, fun p => rfl⟩
  · constructor
    · intro h
      by_contra hp
      simp [TcpSocket.new, hp] at h
    · intro h
      simp [TcpSocket.new, h]
  · by_cases hp : p = 0
    · simp [TcpSocket.new, hp] at h
    · simp [TcpSocket.new, hp] at h
      subst h
      exact ⟨rfl, hp⟩

/-- Claim C1 witness: concrete instances of the amended claim. -/
theorem C1_null_factory_witness :
    TcpSocket.new 0 = none ∧
    (({ socket := 9 } : TcpSocket).socket = 9 ∧ ({ socket := 9 } : TcpSocket).socket ≠ 0) ∧
    (VertexArray.new 5).vertexArray = 5 :=
  ⟨(C1_null_factory.1 0).mpr rfl,
   C1_null_factory.2.1 9 { socket := 9 } (by decide),
   C1_null_factory.2.2 5⟩

/-- Claim C2 counterexample: the foreign primitive-type code 7 lies outside
the seven mapped codes, yet `VertexArray::get_primitive_type` reports no
failure: it silently yields `Points`, the very variant that code 0 maps to. -/
theorem C2_counterexample :
    VertexArray.get_primitive_type { vertexArray := 1 } 7 = PrimitiveType.Points ∧
    VertexArray.get_primitive_type { vertexArray := 1 } 0 = PrimitiveType.Points := by
  exact ⟨rfl, rfl⟩

/-- Claim C2 (amended): for every foreign primitive-type code outside the
seven mapped codes, `VertexArray::get_primitive_type` silently maps it to the
default variant `Points` through its wildcard arm; no failure is reported. -/
theorem C2_silent_default :
    ∀ (va : VertexArray) (code : Nat), 6 < code →
      VertexArray.get_primitive_type va code = PrimitiveType.Points := by
  intro va code h
  unfold VertexArray.get_primitive_type primitiveTypeOfCode
  unfold sfPoints sfLines sfLinesStrip sfTriangles sfTrianglesStrip sfTrianglesFan sfQuads
  repeat rw [if_neg (by omega)]

/-- Claim C2 witness: the unmapped code 100 silently yields `Points`. -/
theorem C2_silent_default_witness :
    VertexArray.get_primitive_type { vertexArray := 2 } 100 = PrimitiveType.Points :=
  C2_silent_default { vertexArray := 2 } 100 (by decide)

/-- Claim C3: for every integer status code in the closed set returned by the
blocking socket I/O foreign calls, the `as i8` cast followed by the transmute
to `SocketStatus` is total and yields exactly one named variant, and every
one of the five blocking operations returns precisely that variant. -/
theorem C3_status_translation_total :
    ∀ (sock : TcpSocket) (host : IpAddress) (port : Nat) (timeout : Time)
      (ptr : Nat) (data : List Int) (pack : Packet)
      (mem : Nat → Nat → List Int) (maxSize written : Nat) (code : Int),
      code = 0 ∨ code = 1 ∨ code = 2 ∨ code = 3 →
      ∃ st : SocketStatus,
        socketStatusOfCode (toI8 code) = some st ∧
        (∀ st2 : SocketStatus, socketStatusOfCode (toI8 code) = some st2 → st2 = st) ∧
        (sock.connect host port timeout code).2 = some st ∧
        (sock.send ptr data code).2 = some st ∧
        ((sock.receive mem maxSize code written).2.map (fun r => r.2.1)) = some st ∧
        (sock.send_packet pack code).2 = some st ∧
        ((sock.receive_packet code).2.map (fun r => r.2)) = some st := by
  intro sock host port timeout ptr data pack mem maxSize written code hcode
  rcases hcode with h | h | h | h <;> subst h
  · exact ⟨SocketStatus.Done, rfl, fun st2 h2 => (Option.some.inj h2).symm, rfl, rfl, rfl, rfl, rfl⟩
  · exact ⟨SocketStatus.NotReady, rfl, fun st2 h2 => (Option.some.inj h2).symm, rfl, rfl, rfl, rfl, rfl⟩
  · exact ⟨SocketStatus.Disconnected, rfl, fun st2 h2 => (Option.some.inj h2).symm, rfl, rfl, rfl, rfl, rfl⟩
  · exact ⟨SocketStatus.Error, rfl, fun st2 h2 => (Option.some.inj h2).symm, rfl, rfl, rfl, rfl, rfl⟩

/-- Claim C3 witness: the translation at the concrete code 2. -/
theorem C3_status_translation_total_witness :
    ∃ st : SocketStatus,
      socketStatusOfCode (toI8 2) = some st ∧
      (∀ st2 : SocketStatus, socketStatusOfCode (toI8 2) = some st2 → st2 = st) ∧
      (TcpSocket.connect { socket := 1 } { addr := 2 } 80 { time := 5 } 2).2 = some st ∧
      (TcpSocket.send { socket := 1 } 3 [1, 2] 2).2 = some st ∧
      ((TcpSocket.receive { socket := 1 } (fun _ _ => []) 10 2 0).2.map (fun r => r.2.1)) = some st ∧
      (TcpSocket.send_packet { socket := 1 } { packet := 4 } 2).2 = some st ∧
      ((TcpSocket.receive_packet { socket := 1 } 2).2.map (fun r => r.2)) = some st :=
  C3_status_translation_total { socket := 1 } { addr := 2 } 80 { time := 5 } 3 [1, 2]
    { packet := 4 } (fun _ _ => []) 10 0 2 (Or.inr (Or.inr (Or.inl rfl)))

/-- Claim C4: for each of the seven supported primitive-type codes, reading
the code through `get_primitive_type`'s match and writing the resulting
variant back through `set_primitive_type`'s match passes the original code to
the foreign entry point: the round trip is the identity on the code. -/
theorem C4_primitive_roundtrip :
    ∀ (va : VertexArray) (code : Nat), code < 7 →
      VertexArray.set_primitive_type va (VertexArray.get_primitive_type va code) =
        [FfiCall.sfVertexArray_setPrimitiveType va.vertexArray code] := by
  intro va code h
  interval_cases code <;> rfl

/-- Claim C4 witness: the round trip at the concrete code 4. -/
theorem C4_primitive_roundtrip_witness :
    VertexArray.set_primitive_type { vertexArray := 3 }
        (VertexArray.get_primitive_type { vertexArray := 3 } 4) =
      [FfiCall.sfVertexArray_setPrimitiveType 3 4] :=
  C4_primitive_roundtrip { vertexArray := 3 } 4 (by decide)

/-- Claim C5 counterexample: `Wrappable::unwrap` takes `&self` and returns a
copy of the handle without consuming the wrapper, so wrapping the unwrapped
handle of a live wrapper yields two wrappers over handle 5, and dropping both
issues the foreign destructor on handle 5 twice — destroying the same handle
twice is reachable, not structurally impossible. -/
theorem C5_counterexample :
    ((ownRun [OwnOp.newSocket 5, OwnOp.rewrapUnwrapped 0,
        OwnOp.dropWrapper 1, OwnOp.dropWrapper 0]).destroyed.count
      (FfiCall.sfTcpSocket_destroy 5)) = 2 := by
  decide

/-- Claim C5 (amended): dropping a wrapper invokes the matching foreign
destructor on its handle exactly once and removes exactly that wrapper; but
because `unwrap` borrows the handle instead of transferring ownership,
`wrap (w.unwrap())` duplicates ownership of a live wrapper's handle, so the
same handle can end up destroyed twice through two wrappers. -/
theorem C5_drop_once_per_wrapper :
    (∀ (s : OwnState) (i h : Nat), s.live[i]? = some h →
      (ownStep s (OwnOp.dropWrapper i)).destroyed =
          s.destroyed ++ TcpSocket.drop { socket := h } ∧
        (ownStep s (OwnOp.dropWrapper i)).live = s.live.eraseIdx i) ∧
    (ownRun [OwnOp.newSocket 5, OwnOp.rewrapUnwrapped 0]).live = [5, 5] := by
  constructor
  · intro s i h hh
    simp [ownStep, hh]
  · decide

/-- Claim C5 witness: dropping the single live wrapper over handle 9 issues
exactly one destructor call on handle 9 and removes the wrapper. -/
theorem C5_drop_once_per_wrapper_witness :
    (ownStep { live := [9], destroyed := [] } (OwnOp.dropWrapper 0)).destroyed =
        TcpSocket.drop { socket := 9 } ∧
      (ownStep { live := [9], destroyed := [] } (OwnOp.dropWrapper 0)).live = [] :=
  C5_drop_once_per_wrapper.1 { live := [9], destroyed := [] } 0 9 (by decide)

/-- Claim C6: for every status code in the closed set, each of the five
blocking socket operations hands the translated status back to the caller as
an ordinary value — the result is defined (`isSome`) even for the non-success
codes, equals the direct translation of the code with nothing recovered on
the caller's behalf, and exactly one foreign call is issued, so nothing is
retried. -/
theorem C6_status_surfaced :
    ∀ (sock : TcpSocket) (host : IpAddress) (port : Nat) (timeout : Time)
      (ptr : Nat) (data : List Int) (pack : Packet)
      (mem : Nat → Nat → List Int) (maxSize written : Nat) (code : Int),
      code = 0 ∨ code = 1 ∨ code = 2 ∨ code = 3 →
      ((sock.connect host port timeout code).2 = socketStatusOfCode (toI8 code) ∧
        (sock.connect host port timeout code).2.isSome = true ∧
        (sock.connect host port timeout code).1.length = 1) ∧
      ((sock.send ptr data code).2 = socketStatusOfCode (toI8 code) ∧
        (sock.send ptr data code).2.isSome = true ∧
        (sock.send ptr data code).1.length = 1) ∧
      (((sock.receive mem maxSize code written).2.map (fun r => r.2.1)) =
          socketStatusOfCode (toI8 code) ∧
        (sock.receive mem maxSize code written).2.isSome = true ∧
        (sock.receive mem maxSize code written).1.length = 1) ∧
      ((sock.send_packet pack code).2 = socketStatusOfCode (toI8 code) ∧
        (sock.send_packet pack code).2.isSome = true ∧
        (sock.send_packet pack code).1.length = 1) ∧
      (((sock.receive_packet code).2.map (fun r => r.2)) =
          socketStatusOfCode (toI8 code) ∧
        (sock.receive_packet code).2.isSome = true ∧
        (sock.receive_packet code).1.length = 1) := by
  intro sock host port timeout ptr data pack mem maxSize written code hcode
  rcases hcode with h | h | h | h <;> subst h <;>
    exact ⟨⟨rfl, rfl, rfl⟩, ⟨rfl, rfl, rfl⟩, ⟨rfl, rfl, rfl⟩, ⟨rfl, rfl, rfl⟩, ⟨rfl, rfl, rfl⟩⟩

/-- Claim C6 witness: the five operations at the concrete code 3. -/
theorem C6_status_surfaced_witness :
    ((TcpSocket.connect { socket := 1 } { addr := 2 } 80 { time := 5 } 3).2 =
        socketStatusOfCode (toI8 3) ∧
      (TcpSocket.connect { socket := 1 } { addr := 2 } 80 { time := 5 } 3).2.isSome = true ∧
      (TcpSocket.connect { socket := 1 } { addr := 2 } 80 { time := 5 } 3).1.length = 1) ∧
    ((TcpSocket.send { socket := 1 } 3 [1, 2] 3).2 = socketStatusOfCode (toI8 3) ∧
      (TcpSocket.send { socket := 1 } 3 [1, 2] 3).2.isSome = true ∧
      (TcpSocket.send { socket := 1 } 3 [1, 2] 3).1.length = 1) ∧
    (((TcpSocket.receive { socket := 1 } (fun _ _ => []) 10 3 0).2.map (fun r => r.2.1)) =
        socketStatusOfCode (toI8 3) ∧
      (TcpSocket.receive { socket := 1 } (fun _ _ => []) 10 3 0).2.isSome = true ∧
      (TcpSocket.receive { socket := 1 } (fun _ _ => []) 10 3 0).1.length = 1) ∧
    ((TcpSocket.send_packet { socket := 1 } { packet := 4 } 3).2 =
        socketStatusOfCode (toI8 3) ∧
      (TcpSocket.send_packet { socket := 1 } { packet := 4 } 3).2.isSome = true ∧
      (TcpSocket.send_packet { socket := 1 } { packet := 4 } 3).1.length = 1) ∧
    (((TcpSocket.receive_packet { socket := 1 } 3).2.map (fun r => r.2)) =
        socketStatusOfCode (toI8 3) ∧
      (TcpSocket.receive_packet { socket := 1 } 3).2.isSome = true ∧
      (TcpSocket.receive_packet { socket := 1 } 3).1.length = 1) :=
  C6_status_surfaced { socket := 1 } { addr := 2 } 80 { time := 5 } 3 [1, 2]
    { packet := 4 } (fun _ _ => []) 10 0 3 (Or.inr (Or.inr (Or.inr rfl)))

/-- Claim C7: `send` passes exactly the slice's base pointer and its length,
`set_blocking` passes `SFTRUE` for `true` and `SFFALSE` for `false`, and
`append` passes the vertex itself — in each case a single foreign call with
the arguments forwarded unchanged, with no buffering, batching or
validation. -/
theorem C7_forwarding :
    ∀ (sock : TcpSocket) (ptr : Nat) (data : List Int) (code : Int) (b : Bool)
      (va : VertexArray) (v : Vertex),
      (sock.send ptr data code).1 = [FfiCall.sfTcpSocket_send sock.socket ptr data.length] ∧
      sock.set_blocking b =
        [FfiCall.sfTcpSocket_setBlocking sock.socket
          (if b then SfBool.SFTRUE else SfBool.SFFALSE)] ∧
      va.append v = [FfiCall.sfVertexArray_append va.vertexArray v] := by
  intro sock ptr data code b va v
  refine ⟨rfl, ?_, rfl⟩
  cases b <;> rfl

/-- Claim C9: both receive operations pass the null pointer (address 0) as
the foreign destination, and the value handed back to the caller is built
from that same null pointer together with the foreign-reported length: the
vector is the memory read at address 0 of the reported size, and the packet
wraps address 0. -/
theorem C9_null_destination :
    ∀ (sock : TcpSocket) (mem : Nat → Nat → List Int) (maxSize written : Nat) (code : Int),
      (sock.receive mem maxSize code written).1 =
          [FfiCall.sfTcpSocket_receive sock.socket 0 maxSize] ∧
      (∀ (v : List Int) (st : SocketStatus) (n : Nat),
        (sock.receive mem maxSize code written).2 = some (v, st, n) →
          v = mem 0 written ∧ n = written) ∧
      (sock.receive_packet code).1 =
          [FfiCall.sfTcpSocket_receivePacket sock.socket 0] ∧
      (∀ (p : Packet) (st : SocketStatus),
        (sock.receive_packet code).2 = some (p, st) → p = Packet.wrap 0) := by
  intro sock mem maxSize written code
  refine ⟨rfl, ?_, rfl, ?_⟩
  · intro v st n h
    cases hc : socketStatusOfCode (toI8 code) with
    | none => simp [TcpSocket.receive, hc] at h
    | some x =>
      simp [TcpSocket.receive, hc] at h
      exact ⟨h.1.symm, h.2.2.symm⟩
  · intro p st h
    cases hc : socketStatusOfCode (toI8 code) with
    | none => simp [TcpSocket.receive_packet, hc] at h
    | some x =>
      simp [TcpSocket.receive_packet, hc] at h
      exact h.1.symm

/-- Claim C9 witness: a concrete receive at code 0 with reported length 1. -/
theorem C9_null_destination_witness :
    (TcpSocket.receive { socket := 1 } (fun _ _ => [7]) 10 0 1).1 =
        [FfiCall.sfTcpSocket_receive 1 0 10] ∧
      (([7] : List Int) = (fun _ _ => ([7] : List Int)) 0 1 ∧ (1 : Nat) = 1) ∧
      ({ packet := 0 } : Packet) = Packet.wrap 0 :=
  ⟨(C9_null_destination { socket := 1 } (fun _ _ => [7]) 10 1 0).1,
   (C9_null_destination { socket := 1 } (fun _ _ => [7]) 10 1 0).2.1
     [7] SocketStatus.Done 1 (by decide),
   (C9_null_destination { socket := 1 } (fun _ _ => [7]) 10 1 0).2.2.2
     { packet := 0 } SocketStatus.Done (by decide)⟩

/-- Claim C10: if setting the blocking flag to `b` passes the foreign value
`r`, then reading `r` back through `is_blocking` returns `b` — the boolean
round trip is the identity — and the foreign boolean type has exactly the two
values `SFTRUE` and `SFFALSE`, so `is_blocking` is defined on all of them
with no fallback branch. -/
theorem C10_blocking_roundtrip :
    (∀ (sock : TcpSocket) (b : Bool) (r : SfBool),
      sock.set_blocking b = [FfiCall.sfTcpSocket_setBlocking sock.socket r] →
        sock.is_blocking r = b) ∧
    (∀ v : SfBool, v = SfBool.SFTRUE ∨ v = SfBool.SFFALSE) := by
  constructor
  · intro sock b r h
    cases b <;> cases r <;>
      simp_all [TcpSocket.set_blocking, TcpSocket.is_blocking]
  · intro v
    cases v
    · exact Or.inr rfl
    · exact Or.inl rfl

/-- Claim C10 witness: setting `true` passes `SFTRUE`, and reading `SFTRUE`
back yields `true`. -/
theorem C10_blocking_roundtrip_witness :
    TcpSocket.is_blocking { socket := 2 } SfBool.SFTRUE = true :=
  C10_blocking_roundtrip.1 { socket := 2 } true SfBool.SFTRUE (by decide)

/-- Claim C8: a freshly constructed sound playback object, on which `play`
has not been invoked, reports the stopped status, not playing. -/
theorem C8_initial_status :
    ∀ (created buffer : Nat) (snd : Sound),
      Sound.new_with_buffer created buffer = some snd →
        Sound.get_status snd = SoundStatus.Stopped ∧
          Sound.get_status snd ≠ SoundStatus.Playing := by
  intro created buffer snd h
  by_cases hc : created = 0
  · simp [Sound.new_with_buffer, hc] at h
  · simp [Sound.new_with_buffer, hc] at h
    subst h
    exact ⟨rfl, by simp [Sound.get_status]⟩

/-- Claim C8 witness: a sound constructed over handle 1 and buffer 4. -/
theorem C8_initial_status_witness :
    Sound.get_status { status := SoundStatus.Stopped, buffer := 4 } = SoundStatus.Stopped ∧
      Sound.get_status { status := SoundStatus.Stopped, buffer := 4 } ≠ SoundStatus.Playing :=
  C8_initial_status 1 4 { status := SoundStatus.Stopped, buffer := 4 } (by decide)
